import Mathlib

/-!
Verification development for the ProxySQL Ansible configuration modules
(proxysql_global_variables, proxysql_mysql_users, proxysql_scheduler,
proxysql_manage_config).

Each module is shallowly embedded: the external store is a list of rows, a
module run is a pure function from parameters and store to an outcome
(a result or a failure message, the new store, and the trace of statements
sent to the admin interface).  The embeddings start after parameter
validation and connection establishment, which live in the outer Ansible
collaborator; MySQLdb parameter binding is modelled as plain string values.
-/

namespace ProxySQLSpec

/-- Branch label for the reconciliation outcome: which action the engine
chose.  It annotates the branch taken by the embedded `main` functions. -/
inductive Action
  | noop
  | create
  | update
  | delete
  deriving DecidableEq

/-- Whether an action mutates the store. -/
def Action.isMutating : Action → Bool
  | .noop => false
  | _ => true

/-- Value assigned to the `changed` key of a result.  The scheduler's
`delete_schedule_config` returns the Python tuple `(True, rowcount)`, which
is then stored verbatim in `result['changed']`; every other assignment is a
plain boolean.  A nonempty tuple is truthy in Python. -/
inductive ChangedVal
  | plain (b : Bool)
  | withCount (b : Bool) (n : Nat)
  deriving DecidableEq

/-- Python truthiness of a `changed` value: a nonempty tuple is truthy. -/
def ChangedVal.truthy : ChangedVal → Bool
  | .plain b => b
  | .withCount _ _ => true

/-- Python value of the `value` module parameter of
proxysql_global_variables (declared without a type in the argument spec). -/
inductive PyValue
  | pyNone
  | pyStr (s : String)
  | pyInt (n : Int)
  deriving DecidableEq

/-- Python truthiness: None, the empty string and zero are falsy. -/
def PyValue.truthy : PyValue → Bool
  | .pyNone => false
  | .pyStr s => s != ""
  | .pyInt n => n != 0

/-- String a truthy value binds to in a parameterized query (MySQLdb
stringifies the bound parameter). -/
def PyValue.toDbString : PyValue → String
  | .pyNone => ""
  | .pyStr s => s
  | .pyInt n => toString n

/-- Module `state` parameter: ensure present or ensure absent. -/
inductive PState
  | present
  | absent
  deriving DecidableEq

/-! ## proxysql_manage_config: the layer-transfer engine -/

/-- The `action` choice of proxysql_manage_config. -/
inductive MCAction
  | load
  | save
  deriving DecidableEq

/-- The `direction` choice of proxysql_manage_config. -/
inductive MCDirection
  | from_
  | to_
  deriving DecidableEq

/-- The `config_layer` choice of proxysql_manage_config. -/
inductive MCLayer
  | memory
  | disk
  | runtime
  | config
  deriving DecidableEq

/-- The `config_settings` choice of proxysql_manage_config. -/
inductive MCSettings
  | mysqlUsers
  | mysqlServers
  | mysqlQueryRules
  | mysqlVariables
  | adminVariables
  | scheduler
  deriving DecidableEq

/-- Word the `action` choice contributes to the bulk command. -/
def MCAction.word : MCAction → String
  | .load => "LOAD"
  | .save => "SAVE"

/-- Word the `direction` choice contributes to the bulk command. -/
def MCDirection.word : MCDirection → String
  | .from_ => "FROM"
  | .to_ => "TO"

/-- Word the `config_layer` choice contributes to the bulk command. -/
def MCLayer.word : MCLayer → String
  | .memory => "MEMORY"
  | .disk => "DISK"
  | .runtime => "RUNTIME"
  | .config => "CONFIG"

/-- Word the `config_settings` choice contributes to the bulk command. -/
def MCSettings.word : MCSettings → String
  | .mysqlUsers => "MYSQL USERS"
  | .mysqlServers => "MYSQL SERVERS"
  | .mysqlQueryRules => "MYSQL QUERY RULES"
  | .mysqlVariables => "MYSQL VARIABLES"
  | .adminVariables => "ADMIN VARIABLES"
  | .scheduler => "SCHEDULER"

/-- Error message when neither the action nor the direction is legal for the
CONFIG layer (perform_checks of proxysql_manage_config). -/
def mcNeitherMsg (a : MCAction) (d : MCDirection) : String :=
  "Neither the action \"" ++ a.word ++ "\" nor the direction \"" ++ d.word ++
    "\" are valid combination with the CONFIG config_layer"

/-- Error message when only the action is illegal for the CONFIG layer. -/
def mcActionMsg (a : MCAction) : String :=
  "The action \"" ++ a.word ++
    "\" is not a valid combination with the CONFIG config_layer"

/-- Error message when only the direction is illegal for the CONFIG layer. -/
def mcDirectionMsg (d : MCDirection) : String :=
  "The direction \"" ++ d.word ++
    "\" is not a valid combination with the CONFIG config_layer"

/-- Validation of proxysql_manage_config.perform_checks (the port-range
check lives in the outer collaborator and is out of scope): rejects any
combination where the CONFIG layer is used other than as LOAD ... FROM,
returning the failure message, and accepts everything else. -/
def perform_checks (a : MCAction) (d : MCDirection) (l : MCLayer) :
    Option String :=
  if l = MCLayer.config ∧ ¬(a = MCAction.load ∧ d = MCDirection.from_) then
    if a ≠ MCAction.load ∧ d ≠ MCDirection.from_ then
      some (mcNeitherMsg a d)
    else if a ≠ MCAction.load then
      some (mcActionMsg a)
    else
      some (mcDirectionMsg d)
  else
    none

/-- Separator used by the bulk-command join. -/
def spaceStr : String := " "

/-- The one bulk transfer command proxysql_manage_config.manage_config
executes: the four supplied words joined by single spaces. -/
def mcCommand (a : MCAction) (s : MCSettings) (d : MCDirection)
    (l : MCLayer) : String :=
  String.intercalate spaceStr [a.word, s.word, d.word, l.word]

/-- Outcome of a proxysql_manage_config run: the result (changed flag or
failure message), whether a connection to the store was established, and
the commands sent to the store. -/
structure MCOut where
  result : Except String Bool
  connected : Bool
  trace : List String

/-- Embeds proxysql_manage_config.main: validation runs first; on a
validation failure the module fails before connecting or issuing any
command; otherwise it connects, executes the single joined bulk command and
reports changed=True unconditionally. -/
def mcMain (a : MCAction) (s : MCSettings) (d : MCDirection)
    (l : MCLayer) : MCOut :=
  match perform_checks a d l with
  | some msg => ⟨Except.error msg, false, []⟩
  | none => ⟨Except.ok true, true, [mcCommand a s d l]⟩

/-- Changed flag of a manage_config outcome, when it succeeded. -/
def MCOut.changedB (o : MCOut) : Option Bool :=
  match o.result with
  | .ok b => some b
  | .error _ => none

/-- Failure message of a manage_config outcome, when it failed. -/
def MCOut.errMsg (o : MCOut) : Option String :=
  match o.result with
  | .ok _ => none
  | .error m => some m

/-! ## proxysql_global_variables -/

/-- A row of the global_variables table. -/
structure GVRow where
  variable_name : String
  variable_value : String
  deriving DecidableEq

/-- The global_variables table. -/
abbrev GVStore := List GVRow

/-- Statements proxysql_global_variables sends to the admin interface. -/
inductive GVStmt
  | selectVar (name : String)
  | countVar (name value : String)
  | updateVar (name value : String)
  | saveVarsDisk (admin : Bool)
  | loadVarsRuntime (admin : Bool)
  deriving DecidableEq

/-- Whether a global-variables statement mutates the store. -/
def GVStmt.isMutStmt : GVStmt → Bool
  | .updateVar _ _ => true
  | _ => false

/-- Whether a global-variables statement is a propagation command
(disk save or runtime load). -/
def GVStmt.isPropStmt : GVStmt → Bool
  | .saveVarsDisk _ => true
  | .loadVarsRuntime _ => true
  | _ => false

/-- Namespace marker selecting the admin variable family. -/
def adminPre : String := "admin"

/-- get_config: SELECT * FROM global_variables WHERE variable_name = %s,
fetching the first matching row. -/
def get_config (varName : String) (store : GVStore) : Option GVRow :=
  (store.filter (fun r => r.variable_name == varName)).head?

/-- check_config: SELECT count(*) FROM global_variables WHERE
variable_name = %s AND variable_value = %s, compared against zero. -/
def check_config (varName value : String) (store : GVStore) : Bool :=
  decide (0 < (store.filter
    (fun r => r.variable_name == varName && r.variable_value == value)).length)

/-- set_config: UPDATE global_variables SET variable_value = %s WHERE
variable_name = %s. -/
def set_config (varName value : String) (store : GVStore) : GVStore :=
  store.map (fun r =>
    if r.variable_name == varName then
      { r with variable_value := value }
    else r)

/-- Propagation commands of proxysql_global_variables.manage_config, issued
when the preceding mutation reported success: the opted-in disk save first,
then the opted-in runtime load; the family is ADMIN when the variable name
starts with "admin", MYSQL otherwise. -/
def gvPropCmds (varName : String) (saveToDisk loadToRuntime : Bool) :
    List GVStmt :=
  (if saveToDisk then [GVStmt.saveVarsDisk (varName.startsWith adminPre)]
   else []) ++
  (if loadToRuntime then [GVStmt.loadVarsRuntime (varName.startsWith adminPre)]
   else [])

/-- Successful result of a proxysql_global_variables run. -/
structure GVResult where
  action : Action
  changed : Bool
  var : Option GVRow
  deriving DecidableEq

/-- Outcome of a proxysql_global_variables run. -/
structure GVOut where
  result : Except String GVResult
  store : GVStore
  trace : List GVStmt

/-- Not-found failure message of proxysql_global_variables. -/
def gvNotFoundMsg (varName : String) : String :=
  "The variable \"" ++ varName ++ "\" was not found"

/-- Embeds proxysql_global_variables.main after connection: a falsy value
selects the read-only get path; a truthy value selects the set path, which
updates only when the (name, value) pair is not already stored, returns the
re-fetched row and propagates per the two toggles; check mode reports
changed without executing the UPDATE or the propagation. -/
def gvMain (checkMode : Bool) (varName : String) (value : PyValue)
    (saveToDisk loadToRuntime : Bool) (store : GVStore) : GVOut :=
  if value.truthy then
    if (get_config varName store).isSome then
      if check_config varName value.toDbString store then
        ⟨Except.ok ⟨Action.noop, false, get_config varName store⟩, store,
         [GVStmt.selectVar varName,
          GVStmt.countVar varName value.toDbString,
          GVStmt.selectVar varName]⟩
      else if checkMode then
        ⟨Except.ok ⟨Action.update, true, none⟩, store,
         [GVStmt.selectVar varName,
          GVStmt.countVar varName value.toDbString]⟩
      else
        ⟨Except.ok ⟨Action.update, true,
           get_config varName (set_config varName value.toDbString store)⟩,
         set_config varName value.toDbString store,
         [GVStmt.selectVar varName,
          GVStmt.countVar varName value.toDbString,
          GVStmt.updateVar varName value.toDbString,
          GVStmt.selectVar varName] ++
           gvPropCmds varName saveToDisk loadToRuntime⟩
    else
      ⟨Except.error (gvNotFoundMsg varName), store,
       [GVStmt.selectVar varName]⟩
  else
    if (get_config varName store).isSome then
      ⟨Except.ok ⟨Action.noop, false, get_config varName store⟩, store,
       [GVStmt.selectVar varName, GVStmt.selectVar varName]⟩
    else
      ⟨Except.error (gvNotFoundMsg varName), store,
       [GVStmt.selectVar varName]⟩

/-- Action chosen by a global-variables run, when it succeeded. -/
def GVOut.action? (o : GVOut) : Option Action :=
  match o.result with
  | .ok r => some r.action
  | .error _ => none

/-- Changed flag of a global-variables run, when it succeeded. -/
def GVOut.changedB (o : GVOut) : Option Bool :=
  match o.result with
  | .ok r => some r.changed
  | .error _ => none

/-- Returned record of a global-variables run, when it succeeded. -/
def GVOut.var? (o : GVOut) : Option GVRow :=
  match o.result with
  | .ok r => r.var
  | .error _ => none

/-- Failure message of a global-variables run, when it failed. -/
def GVOut.errMsg (o : GVOut) : Option String :=
  match o.result with
  | .ok _ => none
  | .error m => some m

/-- Whether the run performed a mutating action live. -/
def GVOut.mutatedB (o : GVOut) : Bool :=
  match o.result with
  | .ok r => r.action.isMutating
  | .error _ => false

/-! ## proxysql_mysql_users -/

/-- A row of the mysql_users table.  All column values are modelled as the
strings the admin store holds; the key columns are username, backend and
frontend. -/
structure UserRow where
  username : String
  backend : String
  frontend : String
  password : String
  active : String
  use_ssl : String
  default_hostgroup : String
  default_schema : String
  transaction_persistent : String
  fast_forward : String
  max_connections : String
  deriving DecidableEq

/-- The mysql_users table. -/
abbrev UserStore := List UserRow

/-- Desired-record descriptor for a user: the key parameters username,
backend and frontend are always present; the attribute parameters
(config_data of ProxySQLUser) are optional, `none` meaning the caller
supplied nothing. -/
structure UserDesc where
  username : String
  backend : String
  frontend : String
  password : Option String
  active : Option String
  use_ssl : Option String
  default_hostgroup : Option String
  default_schema : Option String
  transaction_persistent : Option String
  fast_forward : Option String
  max_connections : Option String
  deriving DecidableEq

/-- Sparse equality on one attribute: an absent desired value matches
anything (the column is omitted from the predicate), a present value must
equal the stored one. -/
def attrMatch : Option String → String → Bool
  | none, _ => true
  | some v, x => v == x

/-- Key-fields predicate of the users module: WHERE username = %s AND
backend = %s AND frontend = %s (check_user_config_exists, get_user_config
and delete_user_config all use exactly this). -/
def userKeyMatch (d : UserDesc) (r : UserRow) : Bool :=
  r.username == d.username && r.backend == d.backend &&
    r.frontend == d.frontend

/-- Full sparse predicate of check_user_privs: the key fields plus every
present attribute of config_data. -/
def userFullMatch (d : UserDesc) (r : UserRow) : Bool :=
  userKeyMatch d r &&
    attrMatch d.password r.password &&
    attrMatch d.active r.active &&
    attrMatch d.use_ssl r.use_ssl &&
    attrMatch d.default_hostgroup r.default_hostgroup &&
    attrMatch d.default_schema r.default_schema &&
    attrMatch d.transaction_persistent r.transaction_persistent &&
    attrMatch d.fast_forward r.fast_forward &&
    attrMatch d.max_connections r.max_connections

/-- Row count of the key-fields predicate
(check_user_config_exists's count(*)). -/
def userKeyCount (d : UserDesc) (store : UserStore) : Nat :=
  (store.filter (fun r => userKeyMatch d r)).length

/-- Row count of the full sparse predicate (check_user_privs's count(*)). -/
def userFullCount (d : UserDesc) (store : UserStore) : Nat :=
  (store.filter (fun r => userFullMatch d r)).length

/-- get_user_config: SELECT * by the key-fields predicate, fetching the
first matching row. -/
def get_user_config (d : UserDesc) (store : UserStore) : Option UserRow :=
  (store.filter (fun r => userKeyMatch d r)).head?

/-- Modelled from the spec: column defaults of the external mysql_users
schema, taken by an INSERT that omits the column ("absent attributes take
the store's own default, never written explicitly").  The concrete schema
lives in the external store, outside this codebase. -/
def userDefaults : UserRow :=
  { username := "", backend := "", frontend := "", password := ""
    active := "1", use_ssl := "0", default_hostgroup := "0"
    default_schema := "", transaction_persistent := "0"
    fast_forward := "0", max_connections := "10000" }

/-- Row written by create_user_config: the three key columns plus every
present attribute column; omitted columns take the store defaults. -/
def userRowFromDesc (d : UserDesc) : UserRow :=
  { username := d.username, backend := d.backend, frontend := d.frontend
    password := d.password.getD userDefaults.password
    active := d.active.getD userDefaults.active
    use_ssl := d.use_ssl.getD userDefaults.use_ssl
    default_hostgroup := d.default_hostgroup.getD userDefaults.default_hostgroup
    default_schema := d.default_schema.getD userDefaults.default_schema
    transaction_persistent :=
      d.transaction_persistent.getD userDefaults.transaction_persistent
    fast_forward := d.fast_forward.getD userDefaults.fast_forward
    max_connections := d.max_connections.getD userDefaults.max_connections }

/-- create_user_config: INSERT of the key columns plus each present
attribute column. -/
def create_user_config (d : UserDesc) (store : UserStore) : UserStore :=
  store ++ [userRowFromDesc d]

/-- SET clause of update_user_config applied to one row: every present
attribute is overwritten, absent attributes are left untouched. -/
def userApplyAttrs (d : UserDesc) (r : UserRow) : UserRow :=
  { r with
    password := d.password.getD r.password
    active := d.active.getD r.active
    use_ssl := d.use_ssl.getD r.use_ssl
    default_hostgroup := d.default_hostgroup.getD r.default_hostgroup
    default_schema := d.default_schema.getD r.default_schema
    transaction_persistent :=
      d.transaction_persistent.getD r.transaction_persistent
    fast_forward := d.fast_forward.getD r.fast_forward
    max_connections := d.max_connections.getD r.max_connections }

/-- update_user_config: UPDATE of the present attribute columns on every
row matching the key-fields predicate. -/
def update_user_config (d : UserDesc) (store : UserStore) : UserStore :=
  store.map (fun r => if userKeyMatch d r then userApplyAttrs d r else r)

/-- delete_user_config: DELETE by the key-fields predicate only (present
attributes are not part of the WHERE clause), returning the new table and
the plain True the source returns (no row count). -/
def delete_user_config (d : UserDesc) (store : UserStore) :
    UserStore × Bool :=
  (store.filter (fun r => !(userKeyMatch d r)), true)

/-- Statements proxysql_mysql_users sends to the admin interface. -/
inductive UserStmt
  | countFull (d : UserDesc)
  | countKey (d : UserDesc)
  | selectKey (d : UserDesc)
  | insertUser (d : UserDesc)
  | updateUser (d : UserDesc)
  | deleteKey (d : UserDesc)
  | saveUsersDisk
  | loadUsersRuntime
  deriving DecidableEq

/-- Whether a users statement mutates the store. -/
def UserStmt.isMutStmt : UserStmt → Bool
  | .insertUser _ => true
  | .updateUser _ => true
  | .deleteKey _ => true
  | _ => false

/-- Whether a users statement is a propagation command. -/
def UserStmt.isPropStmt : UserStmt → Bool
  | .saveUsersDisk => true
  | .loadUsersRuntime => true
  | _ => false

/-- Propagation commands of ProxySQLUser.manage_config, issued when the
preceding mutation reported success: the opted-in disk save first, then
the opted-in runtime load. -/
def userPropCmds (saveToDisk loadToRuntime : Bool) : List UserStmt :=
  (if saveToDisk then [UserStmt.saveUsersDisk] else []) ++
    (if loadToRuntime then [UserStmt.loadUsersRuntime] else [])

/-- Successful result of a proxysql_mysql_users run. -/
structure UserResult where
  action : Action
  changed : Bool
  user : Option UserRow
  deriving DecidableEq

/-- Outcome of a proxysql_mysql_users run. -/
structure UserOut where
  result : Except String UserResult
  store : UserStore
  trace : List UserStmt

/-- Embeds proxysql_mysql_users.main after connection.  Ensure present:
noop when the full sparse predicate matches, otherwise create when even
the key fields match nothing, otherwise update.  Ensure absent: delete
(by key fields, with no cardinality guard) whenever the key fields match,
otherwise noop.  Check mode reports the changed flag of the branch taken
without executing the mutation or the propagation. -/
def userMain (checkMode : Bool) (state : PState) (d : UserDesc)
    (saveToDisk loadToRuntime : Bool) (store : UserStore) : UserOut :=
  match state with
  | PState.present =>
    if 0 < userFullCount d store then
      ⟨Except.ok ⟨Action.noop, false, get_user_config d store⟩, store,
       [UserStmt.countFull d, UserStmt.selectKey d]⟩
    else if userKeyCount d store == 0 then
      if checkMode then
        ⟨Except.ok ⟨Action.create, true, none⟩, store,
         [UserStmt.countFull d, UserStmt.countKey d]⟩
      else
        ⟨Except.ok ⟨Action.create, true,
           get_user_config d (create_user_config d store)⟩,
         create_user_config d store,
         [UserStmt.countFull d, UserStmt.countKey d, UserStmt.insertUser d,
          UserStmt.selectKey d] ++ userPropCmds saveToDisk loadToRuntime⟩
    else
      if checkMode then
        ⟨Except.ok ⟨Action.update, true, none⟩, store,
         [UserStmt.countFull d, UserStmt.countKey d]⟩
      else
        ⟨Except.ok ⟨Action.update, true,
           get_user_config d (update_user_config d store)⟩,
         update_user_config d store,
         [UserStmt.countFull d, UserStmt.countKey d, UserStmt.updateUser d,
          UserStmt.selectKey d] ++ userPropCmds saveToDisk loadToRuntime⟩
  | PState.absent =>
    if 0 < userKeyCount d store then
      if checkMode then
        ⟨Except.ok ⟨Action.delete, true, none⟩, store,
         [UserStmt.countKey d]⟩
      else
        ⟨Except.ok ⟨Action.delete, true, get_user_config d store⟩,
         (delete_user_config d store).1,
         [UserStmt.countKey d, UserStmt.selectKey d, UserStmt.deleteKey d] ++
           userPropCmds saveToDisk loadToRuntime⟩
    else
      ⟨Except.ok ⟨Action.noop, false, none⟩, store,
       [UserStmt.countKey d]⟩

/-- Action chosen by a users run, when it succeeded. -/
def UserOut.action? (o : UserOut) : Option Action :=
  match o.result with
  | .ok r => some r.action
  | .error _ => none

/-- Changed flag of a users run, when it succeeded. -/
def UserOut.changedB (o : UserOut) : Option Bool :=
  match o.result with
  | .ok r => some r.changed
  | .error _ => none

/-- Returned record of a users run, when it succeeded. -/
def UserOut.user? (o : UserOut) : Option UserRow :=
  match o.result with
  | .ok r => r.user
  | .error _ => none

/-- Whether the run chose a mutating action. -/
def UserOut.mutatedB (o : UserOut) : Bool :=
  match o.result with
  | .ok r => r.action.isMutating
  | .error _ => false

/-! ## proxysql_scheduler -/

/-- A row of the scheduler table.  The key columns are active, interval_ms
and filename; the arg and comment columns are nullable (`none` models SQL
NULL, the default an INSERT omitting the column leaves behind). -/
structure SchedRow where
  active : String
  interval_ms : String
  filename : String
  arg1 : Option String
  arg2 : Option String
  arg3 : Option String
  arg4 : Option String
  arg5 : Option String
  comment : Option String
  deriving DecidableEq

/-- The scheduler table. -/
abbrev SchedStore := List SchedRow

/-- Desired-record descriptor for a schedule: active, interval_ms and
filename always present; the config_data attributes arg1..arg5 and comment
optional. -/
structure SchedDesc where
  active : String
  interval_ms : String
  filename : String
  arg1 : Option String
  arg2 : Option String
  arg3 : Option String
  arg4 : Option String
  arg5 : Option String
  comment : Option String
  deriving DecidableEq

/-- Sparse equality on one nullable attribute: an absent desired value
matches anything; a present value must equal a stored non-NULL value (the
SQL comparison col = %s never matches a NULL column). -/
def attrMatchN : Option String → Option String → Bool
  | none, _ => true
  | some v, some x => v == x
  | some _, none => false

/-- Key-fields predicate of the schedule family: WHERE active = %s AND
interval_ms = %s AND filename = %s. -/
def schedKeyMatch (d : SchedDesc) (r : SchedRow) : Bool :=
  r.active == d.active && r.interval_ms == d.interval_ms &&
    r.filename == d.filename

/-- Full sparse predicate built by check_schedule_config (and, identically,
by get_schedule_config): the key fields plus every present attribute. -/
def schedCheckPred (d : SchedDesc) (r : SchedRow) : Bool :=
  schedKeyMatch d r &&
    attrMatchN d.arg1 r.arg1 &&
    attrMatchN d.arg2 r.arg2 &&
    attrMatchN d.arg3 r.arg3 &&
    attrMatchN d.arg4 r.arg4 &&
    attrMatchN d.arg5 r.arg5 &&
    attrMatchN d.comment r.comment

/-- Sparse predicate built, separately but with the same shape, by
delete_schedule_config's WHERE clause: the key fields plus every present
attribute. -/
def schedDeletePred (d : SchedDesc) (r : SchedRow) : Bool :=
  schedKeyMatch d r &&
    attrMatchN d.arg1 r.arg1 &&
    attrMatchN d.arg2 r.arg2 &&
    attrMatchN d.arg3 r.arg3 &&
    attrMatchN d.arg4 r.arg4 &&
    attrMatchN d.arg5 r.arg5 &&
    attrMatchN d.comment r.comment

/-- check_schedule_config: count(*) under the full sparse predicate. -/
def check_schedule_config (d : SchedDesc) (store : SchedStore) : Nat :=
  (store.filter (fun r => schedCheckPred d r)).length

/-- get_schedule_config: SELECT * under the full sparse predicate,
fetching all matching rows. -/
def get_schedule_config (d : SchedDesc) (store : SchedStore) :
    List SchedRow :=
  store.filter (fun r => schedCheckPred d r)

/-- Row written by create_schedule_config: the three key columns plus every
present attribute column; omitted nullable columns keep their NULL
default. -/
def schedRowFromDesc (d : SchedDesc) : SchedRow :=
  { active := d.active, interval_ms := d.interval_ms
    filename := d.filename, arg1 := d.arg1, arg2 := d.arg2, arg3 := d.arg3
    arg4 := d.arg4, arg5 := d.arg5, comment := d.comment }

/-- create_schedule_config: INSERT of the key columns plus each present
attribute column. -/
def create_schedule_config (d : SchedDesc) (store : SchedStore) :
    SchedStore :=
  store ++ [schedRowFromDesc d]

/-- delete_schedule_config: DELETE under the sparse predicate, returning
the new table and the Python tuple (True, rowcount) the source returns. -/
def delete_schedule_config (d : SchedDesc) (store : SchedStore) :
    SchedStore × (Bool × Nat) :=
  (store.filter (fun r => !(schedDeletePred d r)),
   (true, (store.filter (fun r => schedDeletePred d r)).length))

/-- Statements proxysql_scheduler sends to the admin interface. -/
inductive SchedStmt
  | countFull (d : SchedDesc)
  | selectFull (d : SchedDesc)
  | insertSched (d : SchedDesc)
  | deleteFull (d : SchedDesc)
  | saveSchedDisk
  | loadSchedRuntime
  deriving DecidableEq

/-- Whether a scheduler statement mutates the store. -/
def SchedStmt.isMutStmt : SchedStmt → Bool
  | .insertSched _ => true
  | .deleteFull _ => true
  | _ => false

/-- Whether a scheduler statement is a propagation command. -/
def SchedStmt.isPropStmt : SchedStmt → Bool
  | .saveSchedDisk => true
  | .loadSchedRuntime => true
  | _ => false

/-- Propagation commands of ProxySQLSchedule.manage_config, issued when
the preceding mutation reported a truthy result: the opted-in disk save
first, then the opted-in runtime load. -/
def schedPropCmds (saveToDisk loadToRuntime : Bool) : List SchedStmt :=
  (if saveToDisk then [SchedStmt.saveSchedDisk] else []) ++
    (if loadToRuntime then [SchedStmt.loadSchedRuntime] else [])

/-- Cardinality-safety failure message of proxysql_scheduler.main. -/
def schedMultiMsg : String :=
  "Operation would delete multiple records use force_delete to override this"

/-- Successful result of a proxysql_scheduler run. -/
structure SchedResult where
  action : Action
  changed : ChangedVal
  schedules : Option (List SchedRow)
  deriving DecidableEq

/-- Outcome of a proxysql_scheduler run. -/
structure SchedOut where
  result : Except String SchedResult
  store : SchedStore
  trace : List SchedStmt

/-- Embeds proxysql_scheduler.main after validation and connection.
Ensure present: create when the full sparse predicate matches no row,
otherwise noop (there is no update path).  Ensure absent: noop when the
predicate matches nothing; delete when it matches exactly one row or
force_delete is set; otherwise fail with the cardinality-safety message.
Check mode reports the changed flag of the branch taken without executing
the mutation or the propagation. -/
def schedMain (checkMode : Bool) (state : PState) (force_delete : Bool)
    (d : SchedDesc) (saveToDisk loadToRuntime : Bool) (store : SchedStore) :
    SchedOut :=
  match state with
  | PState.present =>
    if check_schedule_config d store == 0 then
      if checkMode then
        ⟨Except.ok ⟨Action.create, ChangedVal.plain true, none⟩, store,
         [SchedStmt.countFull d]⟩
      else
        ⟨Except.ok ⟨Action.create, ChangedVal.plain true,
           some (get_schedule_config d (create_schedule_config d store))⟩,
         create_schedule_config d store,
         [SchedStmt.countFull d, SchedStmt.insertSched d,
          SchedStmt.selectFull d] ++ schedPropCmds saveToDisk loadToRuntime⟩
    else
      ⟨Except.ok ⟨Action.noop, ChangedVal.plain false,
         some (get_schedule_config d store)⟩, store,
       [SchedStmt.countFull d, SchedStmt.selectFull d]⟩
  | PState.absent =>
    if check_schedule_config d store == 0 then
      ⟨Except.ok ⟨Action.noop, ChangedVal.plain false, none⟩, store,
       [SchedStmt.countFull d]⟩
    else if check_schedule_config d store == 1 || force_delete then
      if checkMode then
        ⟨Except.ok ⟨Action.delete, ChangedVal.plain true, none⟩, store,
         [SchedStmt.countFull d]⟩
      else
        ⟨Except.ok ⟨Action.delete,
           ChangedVal.withCount true (delete_schedule_config d store).2.2,
           some (get_schedule_config d store)⟩,
         (delete_schedule_config d store).1,
         [SchedStmt.countFull d, SchedStmt.selectFull d,
          SchedStmt.deleteFull d] ++ schedPropCmds saveToDisk loadToRuntime⟩
    else
      ⟨Except.error schedMultiMsg, store, [SchedStmt.countFull d]⟩

/-- Action chosen by a scheduler run, when it succeeded. -/
def SchedOut.action? (o : SchedOut) : Option Action :=
  match o.result with
  | .ok r => some r.action
  | .error _ => none

/-- Raw changed value of a scheduler run, when it succeeded. -/
def SchedOut.changedVal? (o : SchedOut) : Option ChangedVal :=
  match o.result with
  | .ok r => some r.changed
  | .error _ => none

/-- Truthiness of the changed value of a scheduler run, when it
succeeded. -/
def SchedOut.changedB (o : SchedOut) : Option Bool :=
  match o.result with
  | .ok r => some r.changed.truthy
  | .error _ => none

/-- Failure message of a scheduler run, when it failed. -/
def SchedOut.errMsg (o : SchedOut) : Option String :=
  match o.result with
  | .ok _ => none
  | .error m => some m

/-- Whether the run chose a mutating action. -/
def SchedOut.mutatedB (o : SchedOut) : Bool :=
  match o.result with
  | .ok r => r.action.isMutating
  | .error _ => false

/-! ## Query-text construction of check_user_privs

The source builds the sparse predicate by iterating `self.config_data`, a
Python dict, with `iteritems()`; the resulting SQL text therefore depends
on the dict's iteration order, which is a property of the hash table, not
a declared order.  The builder is embedded with the iteration order as an
explicit parameter. -/

/-- Base text of the check_user_privs query (the literal triple-quoted
string of the source). -/
def userPrivsQueryBase : String :=
  "SELECT count(*) AS `user_count`\n               FROM mysql_users\n               WHERE username = %s\n                 AND backend = %s\n                 AND frontend = %s"

/-- Text appended before a column name for each present attribute. -/
def andFragA : String := "\n  AND "

/-- Text appended after a column name for each present attribute. -/
def andFragB : String := " = %s"

/-- Declared construction order of config_data keys in ProxySQLUser
(the insertion order of the dict, not its iteration order). -/
def userConfigDataKeys : List String :=
  ["password", "active", "use_ssl", "default_hostgroup", "default_schema",
   "transaction_persistent", "fast_forward", "max_connections"]

/-- Value of one config_data entry of a descriptor, by key name. -/
def userAttrLookup (d : UserDesc) (k : String) : Option String :=
  if k == "password" then d.password
  else if k == "active" then d.active
  else if k == "use_ssl" then d.use_ssl
  else if k == "default_hostgroup" then d.default_hostgroup
  else if k == "default_schema" then d.default_schema
  else if k == "transaction_persistent" then d.transaction_persistent
  else if k == "fast_forward" then d.fast_forward
  else if k == "max_connections" then d.max_connections
  else none

/-- Query text generated by check_user_privs when the dict yields its keys
in the order iterOrder: for each key whose value is present, the AND
fragment for that column is appended. -/
def check_user_privs_text (d : UserDesc) (iterOrder : List String) :
    String :=
  iterOrder.foldl
    (fun acc col =>
      match userAttrLookup d col with
      | some _ => acc ++ andFragA ++ col ++ andFragB
      | none => acc)
    userPrivsQueryBase

/-! ## Concrete fixtures for counterexamples and witnesses -/

/-- Schedule descriptor whose key fields match `c1Row` but whose present
attribute arg1 differs. -/
def c1Desc : SchedDesc :=
  { active := "1", interval_ms := "10000"
    filename := "/opt/maintenance.py", arg1 := some "b", arg2 := none
    arg3 := none, arg4 := none, arg5 := none, comment := none }

/-- Stored schedule row with the same key fields as `c1Desc` and a
different arg1. -/
def c1Row : SchedRow :=
  { active := "1", interval_ms := "10000"
    filename := "/opt/maintenance.py", arg1 := some "a", arg2 := none
    arg3 := none, arg4 := none, arg5 := none, comment := none }

/-- Scheduler store holding exactly `c1Row`. -/
def c1Store : SchedStore := [c1Row]

/-- User descriptor with every attribute absent, so its full sparse
predicate is the key-fields predicate. -/
def c2Desc : UserDesc :=
  { username := "alice", backend := "1", frontend := "1", password := none
    active := none, use_ssl := none, default_hostgroup := none
    default_schema := none, transaction_persistent := none
    fast_forward := none, max_connections := none }

/-- First stored user row matching `c2Desc`. -/
def c2Row : UserRow :=
  { username := "alice", backend := "1", frontend := "1", password := "p1"
    active := "1", use_ssl := "0", default_hostgroup := "0"
    default_schema := "", transaction_persistent := "0"
    fast_forward := "0", max_connections := "10000" }

/-- Second stored user row matching `c2Desc`. -/
def c2RowB : UserRow := { c2Row with password := "p2" }

/-- User store in which the full sparse predicate of `c2Desc` matches two
rows. -/
def c2Store : UserStore := [c2Row, c2RowB]

/-- Schedule descriptor with every attribute absent, for the amended
cardinality-safety witness. -/
def c2SDesc : SchedDesc :=
  { active := "1", interval_ms := "5000", filename := "/opt/job.py"
    arg1 := none, arg2 := none, arg3 := none, arg4 := none, arg5 := none
    comment := none }

/-- First stored schedule row matching `c2SDesc`. -/
def c2SRow : SchedRow :=
  { active := "1", interval_ms := "5000", filename := "/opt/job.py"
    arg1 := some "x", arg2 := none, arg3 := none, arg4 := none
    arg5 := none, comment := none }

/-- Second stored schedule row matching `c2SDesc`. -/
def c2SRowB : SchedRow := { c2SRow with arg1 := some "y" }

/-- Scheduler store in which the full sparse predicate of `c2SDesc`
matches two rows. -/
def c2SStore : SchedStore := [c2SRow, c2SRowB]

/-- Variable name of the end-to-end example of the spec. -/
def c3Name : String := "mysql-max_connections"

/-- Desired value of the end-to-end example. -/
def c3Val : PyValue := PyValue.pyStr "4096"

/-- Store already holding the desired value (counterexample input). -/
def c3StoreEq : GVStore := [{ variable_name := c3Name, variable_value := "4096" }]

/-- Store holding a divergent value (witness input, per the spec
example). -/
def c3StoreNe : GVStore := [{ variable_name := c3Name, variable_value := "2000" }]

/-- User descriptor with the password attribute present. -/
def c6Desc : UserDesc :=
  { username := "bob", backend := "1", frontend := "1"
    password := some "p", active := none, use_ssl := none
    default_hostgroup := none, default_schema := none
    transaction_persistent := none, fast_forward := none
    max_connections := none }

/-- Stored user row matching the key fields of `c6Desc` with a different
password, so the full sparse predicate does not match it. -/
def c6Row : UserRow :=
  { username := "bob", backend := "1", frontend := "1", password := "q"
    active := "1", use_ssl := "0", default_hostgroup := "0"
    default_schema := "", transaction_persistent := "0"
    fast_forward := "0", max_connections := "10000" }

/-- User store holding exactly `c6Row`. -/
def c6Store : UserStore := [c6Row]

/-- User descriptor with password and active present, the rest absent. -/
def c9Desc : UserDesc :=
  { username := "carol", backend := "1", frontend := "1"
    password := some "p", active := some "1", use_ssl := none
    default_hostgroup := none, default_schema := none
    transaction_persistent := none, fast_forward := none
    max_connections := none }

/-- One possible dict iteration order: the declared key order. -/
def c9OrderA : List String := userConfigDataKeys

/-- Another possible dict iteration order: the first two keys swapped. -/
def c9OrderB : List String :=
  ["active", "password", "use_ssl", "default_hostgroup", "default_schema",
   "transaction_persistent", "fast_forward", "max_connections"]

/-- Variable name for the read-only get-path witness. -/
def c10Name : String := "mysql-poll_timeout"

/-- Store row for the read-only get-path witness. -/
def c10Row : GVRow :=
  { variable_name := c10Name, variable_value := "3000" }

/-- Store for the read-only get-path witness. -/
def c10Store : GVStore := [c10Row]

/-- User descriptor for the C1 witness, with one present attribute
differing from the stored row. -/
def w1Desc : UserDesc :=
  { username := "dave", backend := "1", frontend := "1"
    password := none, active := none, use_ssl := none
    default_hostgroup := some "2", default_schema := none
    transaction_persistent := none, fast_forward := none
    max_connections := none }

/-- Stored user row matching the key fields of `w1Desc` but not its full
sparse predicate. -/
def w1Row : UserRow :=
  { username := "dave", backend := "1", frontend := "1", password := ""
    active := "1", use_ssl := "0", default_hostgroup := "1"
    default_schema := "", transaction_persistent := "0"
    fast_forward := "0", max_connections := "10000" }

/-- User store holding exactly `w1Row`. -/
def w1Store : UserStore := [w1Row]

/-! ## Supporting lemmas -/

/-- A member satisfying the filter predicate makes the filtered length
positive. -/
theorem count_pos_of_mem {α : Type} (p : α → Bool) {a : α} {l : List α}
    (ha : a ∈ l) (hp : p a = true) : 0 < (l.filter p).length :=
  List.length_pos_of_mem (List.mem_filter.mpr ⟨ha, hp⟩)

/-- A positive filtered length yields a member satisfying the predicate. -/
theorem exists_mem_of_count_pos {α : Type} (p : α → Bool) {l : List α}
    (h : 0 < (l.filter p).length) : ∃ a, a ∈ l ∧ p a = true := by
  obtain ⟨a, ha⟩ := List.exists_mem_of_length_pos h
  rw [List.mem_filter] at ha
  exact ⟨a, ha.1, ha.2⟩

/-- A sparse attribute always matches the value it wrote (or, when absent,
whatever the column already held). -/
theorem attrMatch_getD (o : Option String) (x : String) :
    attrMatch o (o.getD x) = true := by
  cases o <;> simp [attrMatch]

/-- The full sparse predicate subsumes the key-fields predicate. -/
theorem userFull_imp_key (d : UserDesc) (r : UserRow)
    (h : userFullMatch d r = true) : userKeyMatch d r = true := by
  unfold userFullMatch at h
  simp only [Bool.and_eq_true] at h
  exact h.1.1.1.1.1.1.1.1

/-- The row an INSERT writes satisfies the full sparse predicate of the
descriptor it was built from. -/
theorem userFullMatch_rowFromDesc (d : UserDesc) :
    userFullMatch d (userRowFromDesc d) = true := by
  unfold userFullMatch userRowFromDesc userKeyMatch
  simp [attrMatch_getD]

/-- A key-matching row satisfies the full sparse predicate after the SET
clause of the update has been applied to it. -/
theorem userFullMatch_applyAttrs (d : UserDesc) (r : UserRow)
    (hk : userKeyMatch d r = true) :
    userFullMatch d (userApplyAttrs d r) = true := by
  unfold userKeyMatch at hk
  unfold userFullMatch userApplyAttrs userKeyMatch
  simp_all [attrMatch_getD]

/-- A positive full-predicate count forces a positive key-predicate
count. -/
theorem userFullCount_pos_imp (d : UserDesc) (store : UserStore)
    (h : 0 < userFullCount d store) : 0 < userKeyCount d store := by
  obtain ⟨r, hr, hp⟩ := exists_mem_of_count_pos _ h
  exact count_pos_of_mem _ hr (userFull_imp_key d r hp)

/-- Action characterization of the users module on the present intent. -/
theorem user_present_action (cm : Bool) (d : UserDesc) (s l : Bool)
    (store : UserStore) :
    (userMain cm PState.present d s l store).action? =
      some (if userKeyCount d store == 0 then Action.create
        else if 0 < userFullCount d store then Action.noop
        else Action.update) := by
  by_cases hf : 0 < userFullCount d store
  · have hk : (userKeyCount d store == 0) = false := by
      have := userFullCount_pos_imp d store hf
      simp only [beq_eq_false_iff_ne, ne_eq]
      omega
    simp [userMain, hf, hk, UserOut.action?]
  · cases hk : (userKeyCount d store == 0) <;> cases cm <;>
      simp [userMain, hf, hk, UserOut.action?]

/-- Action characterization of the scheduler module on the present
intent: it only ever creates or noops. -/
theorem sched_present_action (cm force : Bool) (d : SchedDesc) (s l : Bool)
    (store : SchedStore) :
    (schedMain cm PState.present force d s l store).action? =
      some (if check_schedule_config d store == 0 then Action.create
        else Action.noop) := by
  cases h0 : (check_schedule_config d store == 0) <;> cases cm <;>
    simp [schedMain, h0, SchedOut.action?]

/-- Action characterization of the global-variables module on the set
path: not-found failure when the key matches nothing, otherwise noop or
update; it never creates. -/
theorem gv_present_action (cm : Bool) (varName : String) (value : PyValue)
    (s l : Bool) (store : GVStore) (hv : value.truthy = true) :
    ((get_config varName store).isSome = false →
      (gvMain cm varName value s l store).errMsg =
        some (gvNotFoundMsg varName)) ∧
    ((get_config varName store).isSome = true →
      (gvMain cm varName value s l store).action? =
        some (if check_config varName value.toDbString store then
          Action.noop else Action.update)) := by
  cases hg : (get_config varName store).isSome <;>
    cases hc : check_config varName value.toDbString store <;>
      cases cm <;>
        simp [gvMain, hv, hg, hc, GVOut.action?, GVOut.errMsg]

/-- Check-mode purity of the global-variables module. -/
theorem gv_dryrun (varName : String) (value : PyValue) (s l : Bool)
    (store : GVStore) :
    (gvMain true varName value s l store).store = store ∧
    (gvMain true varName value s l store).trace.filter
      (fun t => t.isMutStmt || t.isPropStmt) = [] ∧
    (gvMain true varName value s l store).changedB =
      (gvMain false varName value s l store).changedB := by
  cases hv : value.truthy <;>
    cases hg : (get_config varName store).isSome <;>
      cases hc : check_config varName value.toDbString store <;>
        simp [gvMain, hv, hg, hc, GVOut.changedB, GVStmt.isMutStmt,
          GVStmt.isPropStmt]

/-- Check-mode purity of the users module. -/
theorem user_dryrun (state : PState) (d : UserDesc) (s l : Bool)
    (store : UserStore) :
    (userMain true state d s l store).store = store ∧
    (userMain true state d s l store).trace.filter
      (fun t => t.isMutStmt || t.isPropStmt) = [] ∧
    (userMain true state d s l store).changedB =
      (userMain false state d s l store).changedB := by
  cases state
  · by_cases hf : 0 < userFullCount d store
    · simp [userMain, hf, UserOut.changedB, UserStmt.isMutStmt,
        UserStmt.isPropStmt]
    · cases hk : (userKeyCount d store == 0) <;>
        simp [userMain, hf, hk, UserOut.changedB, UserStmt.isMutStmt,
          UserStmt.isPropStmt]
  · by_cases hk : 0 < userKeyCount d store <;>
      simp [userMain, hk, UserOut.changedB, UserStmt.isMutStmt,
        UserStmt.isPropStmt]

/-- Check-mode purity of the scheduler module. -/
theorem sched_dryrun (state : PState) (force : Bool) (d : SchedDesc)
    (s l : Bool) (store : SchedStore) :
    (schedMain true state force d s l store).store = store ∧
    (schedMain true state force d s l store).trace.filter
      (fun t => t.isMutStmt || t.isPropStmt) = [] ∧
    (schedMain true state force d s l store).changedB =
      (schedMain false state force d s l store).changedB := by
  cases state <;>
    cases h0 : (check_schedule_config d store == 0) <;>
      cases h1 : (check_schedule_config d store == 1 || force) <;>
        simp [schedMain, h0, h1, SchedOut.changedB, ChangedVal.truthy,
          SchedStmt.isMutStmt, SchedStmt.isPropStmt]

/-- Propagation discipline of a live global-variables run. -/
theorem gv_live_prop (varName : String) (value : PyValue) (s l : Bool)
    (store : GVStore) :
    (gvMain false varName value s l store).trace.filter
        (fun t => t.isPropStmt) =
      (if (gvMain false varName value s l store).mutatedB then
        gvPropCmds varName s l else []) ∧
    (gvMain false varName value s l store).trace =
      (gvMain false varName value s l store).trace.filter
        (fun t => !t.isPropStmt) ++
      (gvMain false varName value s l store).trace.filter
        (fun t => t.isPropStmt) ∧
    (gvMain false varName value s l store).trace.any
        (fun t => t.isMutStmt) =
      (gvMain false varName value s l store).mutatedB := by
  cases hv : value.truthy <;>
    cases hg : (get_config varName store).isSome <;>
      cases hc : check_config varName value.toDbString store <;>
        cases s <;> cases l <;>
          simp [gvMain, hv, hg, hc, GVOut.mutatedB, gvPropCmds,
            Action.isMutating, GVStmt.isMutStmt, GVStmt.isPropStmt]

/-- Propagation discipline of a live users run. -/
theorem user_live_prop (state : PState) (d : UserDesc) (s l : Bool)
    (store : UserStore) :
    (userMain false state d s l store).trace.filter
        (fun t => t.isPropStmt) =
      (if (userMain false state d s l store).mutatedB then
        userPropCmds s l else []) ∧
    (userMain false state d s l store).trace =
      (userMain false state d s l store).trace.filter
        (fun t => !t.isPropStmt) ++
      (userMain false state d s l store).trace.filter
        (fun t => t.isPropStmt) ∧
    (userMain false state d s l store).trace.any
        (fun t => t.isMutStmt) =
      (userMain false state d s l store).mutatedB := by
  cases state
  · by_cases hf : 0 < userFullCount d store
    · simp [userMain, hf, UserOut.mutatedB, userPropCmds,
        Action.isMutating, UserStmt.isMutStmt, UserStmt.isPropStmt]
    · cases hk : (userKeyCount d store == 0) <;> cases s <;> cases l <;>
        simp [userMain, hf, hk, UserOut.mutatedB, userPropCmds,
          Action.isMutating, UserStmt.isMutStmt, UserStmt.isPropStmt]
  · by_cases hk : 0 < userKeyCount d store <;> cases s <;> cases l <;>
      simp [userMain, hk, UserOut.mutatedB, userPropCmds,
        Action.isMutating, UserStmt.isMutStmt, UserStmt.isPropStmt]

/-- Propagation discipline of a live scheduler run. -/
theorem sched_live_prop (state : PState) (force : Bool) (d : SchedDesc)
    (s l : Bool) (store : SchedStore) :
    (schedMain false state force d s l store).trace.filter
        (fun t => t.isPropStmt) =
      (if (schedMain false state force d s l store).mutatedB then
        schedPropCmds s l else []) ∧
    (schedMain false state force d s l store).trace =
      (schedMain false state force d s l store).trace.filter
        (fun t => !t.isPropStmt) ++
      (schedMain false state force d s l store).trace.filter
        (fun t => t.isPropStmt) ∧
    (schedMain false state force d s l store).trace.any
        (fun t => t.isMutStmt) =
      (schedMain false state force d s l store).mutatedB := by
  cases state <;>
    cases h0 : (check_schedule_config d store == 0) <;>
      cases h1 : (check_schedule_config d store == 1 || force) <;>
        cases s <;> cases l <;>
          simp [schedMain, h0, h1, SchedOut.mutatedB, schedPropCmds,
            Action.isMutating, SchedStmt.isMutStmt, SchedStmt.isPropStmt]

/-- Updating a variable leaves the key-lookup success unchanged. -/
theorem gv_get_isSome_set (varName value : String) (store : GVStore) :
    (get_config varName (set_config varName value store)).isSome =
      (get_config varName store).isSome := by
  induction store with
  | nil => simp [get_config, set_config]
  | cons r rest ih =>
    by_cases h : (r.variable_name == varName) = true
    · simp [get_config, set_config, List.filter, h]
    · simp only [Bool.not_eq_true] at h
      simpa [get_config, set_config, List.filter, h] using ih

/-- After setting the variable, the (name, value) pair is stored. -/
theorem gv_check_after_set (varName value : String) (store : GVStore)
    (h : (get_config varName store).isSome = true) :
    check_config varName value (set_config varName value store) = true := by
  induction store with
  | nil => simp [get_config] at h
  | cons r rest ih =>
    by_cases hr : (r.variable_name == varName) = true
    · simp [check_config, set_config, List.filter, hr]
    · simp only [Bool.not_eq_true] at hr
      have h' : (get_config varName rest).isSome = true := by
        simpa [get_config, List.filter, hr] using h
      simpa [check_config, set_config, List.filter, hr] using ih h'

/-- Double-run behaviour of the global-variables set path. -/
theorem gv_double_run (varName : String) (value : PyValue) (s l : Bool)
    (store : GVStore) (hv : value.truthy = true)
    (hk : (get_config varName store).isSome = true) :
    (gvMain false varName value s l
        (gvMain false varName value s l store).store).store =
      (gvMain false varName value s l store).store ∧
    (gvMain false varName value s l
        (gvMain false varName value s l store).store).changedB =
      some false ∧
    (gvMain false varName value s l store).changedB =
      some (!check_config varName value.toDbString store) ∧
    (gvMain false varName value s l
        (gvMain false varName value s l store).store).action? =
      some Action.noop ∧
    (gvMain false varName value s l store).var? =
      get_config varName (gvMain false varName value s l store).store := by
  cases hc : check_config varName value.toDbString store
  · have h1 : (gvMain false varName value s l store).store =
        set_config varName value.toDbString store := by
      simp [gvMain, hv, hk, hc]
    have hk' : (get_config varName
        (set_config varName value.toDbString store)).isSome = true := by
      rw [gv_get_isSome_set]; exact hk
    have hc' : check_config varName value.toDbString
        (set_config varName value.toDbString store) = true :=
      gv_check_after_set varName value.toDbString store hk
    refine ⟨?_, ?_, ?_, ?_, ?_⟩ <;>
      simp [gvMain, hv, hk, hc, h1, hk', hc', GVOut.changedB, GVOut.action?,
        GVOut.var?]
  · have h1 : (gvMain false varName value s l store).store = store := by
      simp [gvMain, hv, hk, hc]
    refine ⟨?_, ?_, ?_, ?_, ?_⟩ <;>
      simp [gvMain, hv, hk, hc, h1, GVOut.changedB, GVOut.action?, GVOut.var?]

/-- A created row makes the full-predicate count positive. -/
theorem userFullCount_pos_create (d : UserDesc) (store : UserStore) :
    0 < userFullCount d (create_user_config d store) :=
  count_pos_of_mem _ (by simp [create_user_config])
    (userFullMatch_rowFromDesc d)

/-- An update over a positive key-predicate count makes the
full-predicate count positive. -/
theorem userFullCount_pos_update (d : UserDesc) (store : UserStore)
    (hk : 0 < userKeyCount d store) :
    0 < userFullCount d (update_user_config d store) := by
  obtain ⟨r, hr, hkey⟩ := exists_mem_of_count_pos _ hk
  have hmem : userApplyAttrs d r ∈ update_user_config d store := by
    have := List.mem_map_of_mem
      (fun r => if userKeyMatch d r then userApplyAttrs d r else r) hr
    simpa [update_user_config, hkey] using this
  exact count_pos_of_mem _ hmem (userFullMatch_applyAttrs d r hkey)

/-- Double-run behaviour of the users present intent. -/
theorem user_double_run (d : UserDesc) (s l : Bool) (store : UserStore) :
    (userMain false PState.present d s l
        (userMain false PState.present d s l store).store).store =
      (userMain false PState.present d s l store).store ∧
    (userMain false PState.present d s l
        (userMain false PState.present d s l store).store).changedB =
      some false ∧
    (userMain false PState.present d s l store).changedB =
      some (!(decide (0 < userFullCount d store))) := by
  by_cases hf : 0 < userFullCount d store
  · have h1 : (userMain false PState.present d s l store).store = store := by
      simp [userMain, hf]
    refine ⟨?_, ?_, ?_⟩ <;> simp [userMain, hf, h1, UserOut.changedB]
  · cases hk : (userKeyCount d store == 0)
    · have hkpos : 0 < userKeyCount d store := by
        simp only [beq_eq_false_iff_ne, ne_eq] at hk
        omega
      have h1 : (userMain false PState.present d s l store).store =
          update_user_config d store := by
        simp [userMain, hf, hk]
      have hf' := userFullCount_pos_update d store hkpos
      refine ⟨?_, ?_, ?_⟩ <;>
        simp [userMain, hf, hk, h1, hf', UserOut.changedB]
    · have h1 : (userMain false PState.present d s l store).store =
          create_user_config d store := by
        simp [userMain, hf, hk]
      have hf' := userFullCount_pos_create d store
      refine ⟨?_, ?_, ?_⟩ <;>
        simp [userMain, hf, hk, h1, hf', UserOut.changedB]

/-- Rejection behaviour of the scheduler ensure-absent intent on an
ambiguous match without the override. -/
theorem sched_absent_reject (cm : Bool) (d : SchedDesc) (s l : Bool)
    (store : SchedStore) (h : 1 < check_schedule_config d store) :
    (schedMain cm PState.absent false d s l store).errMsg =
      some schedMultiMsg ∧
    (schedMain cm PState.absent false d s l store).store = store ∧
    (schedMain cm PState.absent false d s l store).trace.filter
      (fun t => t.isMutStmt || t.isPropStmt) = [] := by
  have h0 : (check_schedule_config d store == 0) = false := by
    simp only [beq_eq_false_iff_ne, ne_eq]; omega
  have h1 : (check_schedule_config d store == 1) = false := by
    simp only [beq_eq_false_iff_ne, ne_eq]; omega
  refine ⟨?_, ?_, ?_⟩ <;>
    simp [schedMain, h0, h1, SchedOut.errMsg, SchedStmt.isMutStmt,
      SchedStmt.isPropStmt]

/-- Delete behaviour of the scheduler ensure-absent intent on an ambiguous
match with the override set. -/
theorem sched_absent_force (d : SchedDesc) (s l : Bool)
    (store : SchedStore) (h : 1 < check_schedule_config d store) :
    (schedMain false PState.absent true d s l store).action? =
      some Action.delete ∧
    (schedMain false PState.absent true d s l store).store =
      store.filter (fun r => !(schedDeletePred d r)) ∧
    (schedMain false PState.absent true d s l store).changedVal? =
      some (ChangedVal.withCount true (check_schedule_config d store)) ∧
    (schedMain false PState.absent true d s l store).changedB =
      some true := by
  have h0 : (check_schedule_config d store == 0) = false := by
    simp only [beq_eq_false_iff_ne, ne_eq]; omega
  have hbr : schedMain false PState.absent true d s l store =
      ⟨Except.ok ⟨Action.delete,
         ChangedVal.withCount true (delete_schedule_config d store).2.2,
         some (get_schedule_config d store)⟩,
       (delete_schedule_config d store).1,
       [SchedStmt.countFull d, SchedStmt.selectFull d,
        SchedStmt.deleteFull d] ++ schedPropCmds s l⟩ := by
    simp only [schedMain, h0, Bool.false_eq_true, if_false, Bool.or_true,
      if_true]
  have hpred : (delete_schedule_config d store).2.2 =
      check_schedule_config d store := by
    simp [delete_schedule_config, check_schedule_config, schedDeletePred,
      schedCheckPred]
  refine ⟨by simp [hbr, SchedOut.action?], by
      simp [hbr, delete_schedule_config], by
      simp [hbr, hpred, SchedOut.changedVal?], by
      simp [hbr, SchedOut.changedB, ChangedVal.truthy]⟩

/-! ## Claim theorems -/

/-- C1 counterexample: on the schedule family, with a stored row matching
the key fields (active, interval_ms, filename) alone but not the full
sparse predicate, the ensure-present engine chooses create, not the update
the claim requires. -/
theorem C1_counterexample :
    0 < (c1Store.filter (fun r => schedKeyMatch c1Desc r)).length ∧
    check_schedule_config c1Desc c1Store = 0 ∧
    (schedMain false PState.present false c1Desc true true
      c1Store).action? = some Action.create := by
  decide

/-- C1 (amended): the create/noop/update rule of the claim holds exactly
for the user family; the schedule family chooses create whenever the full
sparse predicate matches no row (never update), and noop otherwise; the
global-variable family fails with a not-found error when no stored row
matches the key field (it never creates), and otherwise chooses noop on a
full match and update otherwise. -/
theorem C1_present_action_by_family :
    (∀ (cm : Bool) (varName : String) (value : PyValue) (s l : Bool)
        (store : GVStore), value.truthy = true →
      ((get_config varName store).isSome = false →
        (gvMain cm varName value s l store).errMsg =
          some (gvNotFoundMsg varName)) ∧
      ((get_config varName store).isSome = true →
        (gvMain cm varName value s l store).action? =
          some (if check_config varName value.toDbString store then
            Action.noop else Action.update))) ∧
    (∀ (cm : Bool) (d : UserDesc) (s l : Bool) (store : UserStore),
      (userMain cm PState.present d s l store).action? =
        some (if userKeyCount d store == 0 then Action.create
          else if 0 < userFullCount d store then Action.noop
          else Action.update)) ∧
    (∀ (cm force : Bool) (d : SchedDesc) (s l : Bool) (store : SchedStore),
      (schedMain cm PState.present force d s l store).action? =
        some (if check_schedule_config d store == 0 then Action.create
          else Action.noop)) :=
  ⟨gv_present_action, user_present_action, sched_present_action⟩

/-- C1 witness: concrete instances of the three family clauses. -/
theorem C1_witness :
    (gvMain false c3Name c3Val true true c3StoreNe).action? =
      some Action.update ∧
    (userMain false PState.present w1Desc true true w1Store).action? =
      some Action.update ∧
    (schedMain false PState.present false c1Desc true true
      c1Store).action? = some Action.create := by
  refine ⟨?_, ?_, ?_⟩
  · exact ((C1_present_action_by_family.1 false c3Name c3Val true true
      c3StoreNe (by decide)).2 (by decide)).trans (by decide)
  · exact (C1_present_action_by_family.2.1 false w1Desc true true
      w1Store).trans (by decide)
  · exact (C1_present_action_by_family.2.2 false false c1Desc true true
      c1Store).trans (by decide)

/-- C2 counterexample: the users module has no override parameter and no
cardinality check; with two stored rows matching the full sparse predicate
it deletes them all and reports changed, instead of rejecting the call and
leaving the store unchanged. -/
theorem C2_counterexample :
    userFullCount c2Desc c2Store = 2 ∧
    (userMain false PState.absent c2Desc false false c2Store).action? =
      some Action.delete ∧
    (userMain false PState.absent c2Desc false false c2Store).changedB =
      some true ∧
    (userMain false PState.absent c2Desc false false c2Store).store =
      [] := by
  decide

/-- C2 (amended): for the schedule family only, an ensure-absent call
whose full sparse predicate matches more than one stored row is rejected
with the cardinality-safety error when force_delete is not set, with no
mutation, no propagation and an unchanged store; with force_delete set,
all matching rows are deleted and the reported changed value is the
truthy pair of success flag and deleted-row count.  The user family
performs no such check. -/
theorem C2_absent_cardinality_schedule :
    (∀ (cm : Bool) (d : SchedDesc) (s l : Bool) (store : SchedStore),
      1 < check_schedule_config d store →
      (schedMain cm PState.absent false d s l store).errMsg =
        some schedMultiMsg ∧
      (schedMain cm PState.absent false d s l store).store = store ∧
      (schedMain cm PState.absent false d s l store).trace.filter
        (fun t => t.isMutStmt || t.isPropStmt) = []) ∧
    (∀ (d : SchedDesc) (s l : Bool) (store : SchedStore),
      1 < check_schedule_config d store →
      (schedMain false PState.absent true d s l store).action? =
        some Action.delete ∧
      (schedMain false PState.absent true d s l store).store =
        store.filter (fun r => !(schedDeletePred d r)) ∧
      (schedMain false PState.absent true d s l store).changedVal? =
        some (ChangedVal.withCount true (check_schedule_config d store)) ∧
      (schedMain false PState.absent true d s l store).changedB =
        some true) :=
  ⟨sched_absent_reject, sched_absent_force⟩

/-- C2 witness: a two-row ambiguous match is rejected without the
override and fully deleted with it. -/
theorem C2_witness :
    (schedMain false PState.absent false c2SDesc true true
      c2SStore).errMsg = some schedMultiMsg ∧
    (schedMain false PState.absent false c2SDesc true true
      c2SStore).store = c2SStore ∧
    (schedMain false PState.absent true c2SDesc true true
      c2SStore).store = [] ∧
    (schedMain false PState.absent true c2SDesc true true
      c2SStore).changedB = some true := by
  refine ⟨(C2_absent_cardinality_schedule.1 false c2SDesc true true
      c2SStore (by decide)).1,
    (C2_absent_cardinality_schedule.1 false c2SDesc true true c2SStore
      (by decide)).2.1,
    ((C2_absent_cardinality_schedule.2 c2SDesc true true c2SStore
      (by decide)).2.1).trans (by decide),
    (C2_absent_cardinality_schedule.2 c2SDesc true true c2SStore
      (by decide)).2.2.2⟩

/-- C3 counterexample: applying an ensure-present descriptor whose value
the store already holds yields changed=false on the first call, not the
changed=true the claim asserts for every double application. -/
theorem C3_counterexample :
    check_config c3Name c3Val.toDbString c3StoreEq = true ∧
    (gvMain false c3Name c3Val true true c3StoreEq).changedB =
      some false := by
  decide

/-- C3 (amended): applying the same ensure-present descriptor twice
against an otherwise unchanged store yields changed=false on the second
call, the store after the first call equals the store after the second,
and the first call reports changed exactly when the store did not already
match: for a global variable (whose key exists), changed equals the
negation of the stored (name, value) check, the second call is a noop and
the returned record is the refetched post-state; for a user descriptor,
changed equals the negation of the full sparse predicate check. -/
theorem C3_second_run_noop :
    (∀ (varName : String) (value : PyValue) (s l : Bool) (store : GVStore),
      value.truthy = true → (get_config varName store).isSome = true →
      (gvMain false varName value s l
          (gvMain false varName value s l store).store).store =
        (gvMain false varName value s l store).store ∧
      (gvMain false varName value s l
          (gvMain false varName value s l store).store).changedB =
        some false ∧
      (gvMain false varName value s l store).changedB =
        some (!check_config varName value.toDbString store) ∧
      (gvMain false varName value s l
          (gvMain false varName value s l store).store).action? =
        some Action.noop ∧
      (gvMain false varName value s l store).var? =
        get_config varName (gvMain false varName value s l store).store) ∧
    (∀ (d : UserDesc) (s l : Bool) (store : UserStore),
      (userMain false PState.present d s l
          (userMain false PState.present d s l store).store).store =
        (userMain false PState.present d s l store).store ∧
      (userMain false PState.present d s l
          (userMain false PState.present d s l store).store).changedB =
        some false ∧
      (userMain false PState.present d s l store).changedB =
        some (!(decide (0 < userFullCount d store)))) :=
  ⟨gv_double_run, user_double_run⟩

/-- C3 witness: the end-to-end example of the spec, desired value 4096
against stored value 2000: first call updates and returns the new value,
second call is a noop leaving the store as the first call left it. -/
theorem C3_witness :
    (gvMain false c3Name c3Val true true c3StoreNe).changedB =
      some true ∧
    (gvMain false c3Name c3Val true true c3StoreNe).var? =
      some { variable_name := c3Name, variable_value := "4096" } ∧
    (gvMain false c3Name c3Val true true
        (gvMain false c3Name c3Val true true c3StoreNe).store).changedB =
      some false ∧
    (gvMain false c3Name c3Val true true
        (gvMain false c3Name c3Val true true c3StoreNe).store).store =
      (gvMain false c3Name c3Val true true c3StoreNe).store ∧
    (gvMain false c3Name c3Val true true
        (gvMain false c3Name c3Val true true c3StoreNe).store).action? =
      some Action.noop := by
  have H := C3_second_run_noop.1 c3Name c3Val true true c3StoreNe
    (by decide) (by decide)
  exact ⟨H.2.2.1.trans (by decide), H.2.2.2.2.trans (by decide), H.2.1,
    H.1, H.2.2.2.1⟩

/-- C4: in check mode, for every record family and every branch, the
store is unchanged, no insert, update or delete statement and no
propagation command appears in the trace, and the reported changed flag
(truthiness, for the scheduler) equals that of a live run on the same
store. -/
theorem C4_dry_run_purity :
    (∀ (varName : String) (value : PyValue) (s l : Bool) (store : GVStore),
      (gvMain true varName value s l store).store = store ∧
      (gvMain true varName value s l store).trace.filter
        (fun t => t.isMutStmt || t.isPropStmt) = [] ∧
      (gvMain true varName value s l store).changedB =
        (gvMain false varName value s l store).changedB) ∧
    (∀ (state : PState) (d : UserDesc) (s l : Bool) (store : UserStore),
      (userMain true state d s l store).store = store ∧
      (userMain true state d s l store).trace.filter
        (fun t => t.isMutStmt || t.isPropStmt) = [] ∧
      (userMain true state d s l store).changedB =
        (userMain false state d s l store).changedB) ∧
    (∀ (state : PState) (force : Bool) (d : SchedDesc) (s l : Bool)
        (store : SchedStore),
      (schedMain true state force d s l store).store = store ∧
      (schedMain true state force d s l store).trace.filter
        (fun t => t.isMutStmt || t.isPropStmt) = [] ∧
      (schedMain true state force d s l store).changedB =
        (schedMain false state force d s l store).changedB) :=
  ⟨gv_dryrun, user_dryrun, sched_dryrun⟩

/-- C5: in every live run of every record family, the propagation
commands in the trace are exactly the opted-in disk save followed by the
opted-in runtime load when the chosen action is mutating, and empty
otherwise (in particular a noop issues neither); they form the final
segment of the trace, after the mutating statement, which occurs exactly
when the action is mutating. -/
theorem C5_propagation_order :
    (∀ (varName : String) (value : PyValue) (s l : Bool) (store : GVStore),
      (gvMain false varName value s l store).trace.filter
          (fun t => t.isPropStmt) =
        (if (gvMain false varName value s l store).mutatedB then
          gvPropCmds varName s l else []) ∧
      (gvMain false varName value s l store).trace =
        (gvMain false varName value s l store).trace.filter
          (fun t => !t.isPropStmt) ++
        (gvMain false varName value s l store).trace.filter
          (fun t => t.isPropStmt) ∧
      (gvMain false varName value s l store).trace.any
          (fun t => t.isMutStmt) =
        (gvMain false varName value s l store).mutatedB) ∧
    (∀ (state : PState) (d : UserDesc) (s l : Bool) (store : UserStore),
      (userMain false state d s l store).trace.filter
          (fun t => t.isPropStmt) =
        (if (userMain false state d s l store).mutatedB then
          userPropCmds s l else []) ∧
      (userMain false state d s l store).trace =
        (userMain false state d s l store).trace.filter
          (fun t => !t.isPropStmt) ++
        (userMain false state d s l store).trace.filter
          (fun t => t.isPropStmt) ∧
      (userMain false state d s l store).trace.any
          (fun t => t.isMutStmt) =
        (userMain false state d s l store).mutatedB) ∧
    (∀ (state : PState) (force : Bool) (d : SchedDesc) (s l : Bool)
        (store : SchedStore),
      (schedMain false state force d s l store).trace.filter
          (fun t => t.isPropStmt) =
        (if (schedMain false state force d s l store).mutatedB then
          schedPropCmds s l else []) ∧
      (schedMain false state force d s l store).trace =
        (schedMain false state force d s l store).trace.filter
          (fun t => !t.isPropStmt) ++
        (schedMain false state force d s l store).trace.filter
          (fun t => t.isPropStmt) ∧
      (schedMain false state force d s l store).trace.any
          (fun t => t.isMutStmt) =
        (schedMain false state force d s l store).mutatedB) :=
  ⟨gv_live_prop, user_live_prop, sched_live_prop⟩

/-- C6 counterexample: a user delete matches by key fields only; with a
present password attribute differing from the stored one, the full sparse
predicate of matchesDesired matches no row, yet the delete removes the
row, and it returns only the boolean True, not a removed-row count. -/
theorem C6_counterexample :
    userFullCount c6Desc c6Store = 0 ∧
    delete_user_config c6Desc c6Store = ([], true) := by
  decide

/-- C6 (amended): the scheduler delete matches by the key fields plus
every present attribute, the same sparse predicate as
check_schedule_config, and returns the number of rows removed (paired
with a success flag); the users delete matches by the key fields only and
returns only a success boolean, with no count. -/
theorem C6_delete_semantics :
    (∀ (d : SchedDesc) (r : SchedRow),
      schedDeletePred d r = schedCheckPred d r) ∧
    (∀ (d : SchedDesc) (store : SchedStore),
      (delete_schedule_config d store).2.2 =
        (store.filter (fun r => schedDeletePred d r)).length ∧
      ∀ r : SchedRow, r ∈ (delete_schedule_config d store).1 ↔
        r ∈ store ∧ schedDeletePred d r = false) ∧
    (∀ (d : UserDesc) (store : UserStore),
      (delete_user_config d store).2 = true ∧
      ∀ r : UserRow, r ∈ (delete_user_config d store).1 ↔
        r ∈ store ∧ userKeyMatch d r = false) := by
  refine ⟨fun d r => rfl, fun d store => ⟨rfl, fun r => ?_⟩,
    fun d store => ⟨rfl, fun r => ?_⟩⟩
  · simp [delete_schedule_config, List.mem_filter]
  · simp [delete_user_config, List.mem_filter]

/-- C7: (LOAD, FROM, CONFIG) is accepted; every other combination with
the CONFIG layer is rejected before any store command or connection, with
the message naming exactly the offending field or fields. -/
theorem C7_config_layer_legality :
    (∀ s : MCSettings,
      (mcMain MCAction.load s MCDirection.from_ MCLayer.config).result =
        Except.ok true ∧
      (mcMain MCAction.load s MCDirection.from_ MCLayer.config).connected =
        true) ∧
    (∀ s : MCSettings,
      (mcMain MCAction.save s MCDirection.from_ MCLayer.config).result =
        Except.error (mcActionMsg MCAction.save) ∧
      (mcMain MCAction.save s MCDirection.from_ MCLayer.config).connected =
        false ∧
      (mcMain MCAction.save s MCDirection.from_ MCLayer.config).trace =
        []) ∧
    (∀ s : MCSettings,
      (mcMain MCAction.load s MCDirection.to_ MCLayer.config).result =
        Except.error (mcDirectionMsg MCDirection.to_) ∧
      (mcMain MCAction.load s MCDirection.to_ MCLayer.config).connected =
        false ∧
      (mcMain MCAction.load s MCDirection.to_ MCLayer.config).trace =
        []) ∧
    (∀ s : MCSettings,
      (mcMain MCAction.save s MCDirection.to_ MCLayer.config).result =
        Except.error (mcNeitherMsg MCAction.save MCDirection.to_) ∧
      (mcMain MCAction.save s MCDirection.to_ MCLayer.config).connected =
        false ∧
      (mcMain MCAction.save s MCDirection.to_ MCLayer.config).trace =
        []) := by
  refine ⟨fun s => ⟨?_, ?_⟩, fun s => ⟨?_, ?_, ?_⟩, fun s => ⟨?_, ?_, ?_⟩,
    fun s => ⟨?_, ?_, ?_⟩⟩ <;> rfl

/-- C8: for every combination that passes validation, the layer-transfer
engine connects, issues exactly the one bulk command built from the four
supplied words and reports changed=true unconditionally. -/
theorem C8_legal_transfer (a : MCAction) (s : MCSettings)
    (d : MCDirection) (l : MCLayer) (h : perform_checks a d l = none) :
    mcMain a s d l = ⟨Except.ok true, true, [mcCommand a s d l]⟩ := by
  simp [mcMain, h]

/-- C8 witness: SAVE MYSQL USERS FROM MEMORY is legal and runs as one
bulk command with changed=true. -/
theorem C8_witness :
    mcMain MCAction.save MCSettings.mysqlUsers MCDirection.from_
        MCLayer.memory =
      ⟨Except.ok true, true,
       [mcCommand MCAction.save MCSettings.mysqlUsers MCDirection.from_
          MCLayer.memory]⟩ :=
  C8_legal_transfer MCAction.save MCSettings.mysqlUsers MCDirection.from_
    MCLayer.memory rfl

set_option maxRecDepth 40000 in
/-- C9: the check_user_privs query text is not a function of the
descriptor alone: two iteration orders of the same config_data keys (both
permutations of the declared key list) produce different query texts for
the same descriptor, so a dict-iteration implementation violates the
deterministic declared-order contract. -/
theorem C9_order_dependent_text :
    List.Perm c9OrderA userConfigDataKeys ∧
    List.Perm c9OrderB userConfigDataKeys ∧
    check_user_privs_text c9Desc c9OrderA ≠
      check_user_privs_text c9Desc c9OrderB := by
  decide

/-- C10: a falsy value parameter (None, empty string or zero) selects the
read-only get path of the global-variables module: the store is never
mutated, no propagation is issued, and the stored variable is returned
with changed=false when it exists, else the call fails with the not-found
error. -/
theorem C10_falsy_value_get_path (cm : Bool) (varName : String)
    (value : PyValue) (s l : Bool) (store : GVStore)
    (hv : value.truthy = false) :
    (gvMain cm varName value s l store).store = store ∧
    (gvMain cm varName value s l store).trace.filter
      (fun t => t.isMutStmt || t.isPropStmt) = [] ∧
    ((get_config varName store).isSome = true →
      (gvMain cm varName value s l store).result =
        Except.ok ⟨Action.noop, false, get_config varName store⟩) ∧
    ((get_config varName store).isSome = false →
      (gvMain cm varName value s l store).result =
        Except.error (gvNotFoundMsg varName)) := by
  cases hg : (get_config varName store).isSome <;>
    simp [gvMain, hv, hg, GVStmt.isMutStmt, GVStmt.isPropStmt]

/-- C10 witness: value 0 on an existing variable returns the stored row
unchanged with changed=false and an untouched store. -/
theorem C10_witness :
    (gvMain false c10Name (PyValue.pyInt 0) true true c10Store).store =
      c10Store ∧
    (gvMain false c10Name (PyValue.pyInt 0) true true
      c10Store).trace.filter (fun t => t.isMutStmt || t.isPropStmt) = [] ∧
    (gvMain false c10Name (PyValue.pyInt 0) true true c10Store).result =
      Except.ok ⟨Action.noop, false, some c10Row⟩ := by
  have H := C10_falsy_value_get_path false c10Name (PyValue.pyInt 0) true
    true c10Store (by decide)
  have hg : get_config c10Name c10Store = some c10Row := by decide
  exact ⟨H.1, H.2.1, by rw [← hg]; exact H.2.2.1 (by decide)⟩

end ProxySQLSpec
